import Mathlib

/-!
Shallow embedding of the Impact-Change backend server (src/server.js):
a Stripe payment-intent route, an invoice-email route (validation,
order-number generation, HTML/plain-text invoice rendering, nodemailer
transport selection), and the associated error responses.

JavaScript values are modelled as follows: optional request fields are
`Option` types; string truthiness is nonemptiness; numbers are `ℚ`;
`Math.round` is `⌊x + 1/2⌋`; external effects (Date.now, Math.random,
toLocaleDateString, the Stripe and SMTP endpoints) are explicit
parameters.
-/

/-- JavaScript truthiness of a string: falsy iff empty. -/
def strTruthy (s : String) : Bool := s ≠ ""

/-- JavaScript truthiness of an optional string (undefined is falsy). -/
def optStrTruthy : Option String → Bool
  | some s => strTruthy s
  | none => false

/-- JavaScript `v || d` on an optional string: the supplied value when
truthy, otherwise the default. -/
def strOrDefault (v : Option String) (d : String) : String :=
  match v with
  | some s => if s = "" then d else s
  | none => d

/-- Rendering of an optional string inside a template literal:
JavaScript prints `undefined` for a missing value. -/
def jsTemplateOptStr : Option String → String
  | some s => s
  | none => "undefined"

/-- JavaScript `Math.round` on an exact rational: round half toward
positive infinity. -/
def jsMathRound (x : ℚ) : ℤ := ⌊x + 1/2⌋

/-- JavaScript number-to-string conversion, exact on integers (every
number the invoice claims evaluate is an integer). -/
def jsNumToString (q : ℚ) : String :=
  if q.den = 1 then toString q.num else toString q

/-- Relevant environment variables (each `none` when unset). -/
structure Env where
  STRIPE_SECRET_KEY : Option String
  SMTP_HOST : Option String
  SMTP_PORT : Option String
  SMTP_SECURE : Option String
  SMTP_USER : Option String
  SMTP_PASS : Option String
  EMAIL_USER : Option String
  EMAIL_PASS : Option String
  EMAIL_FROM : Option String
  NODE_ENV : Option String
  BASE_URL : Option String
  PORT : Option String

/-- Value of `process.env.SMTP_PORT || 587`: a string when the
variable is truthy, otherwise the number 587. -/
inductive JsPort where
  | str : String → JsPort
  | num : Nat → JsPort
deriving DecidableEq

/-- The nodemailer configuration object passed to `createTransport`
in the custom-SMTP branch of `createEmailTransporter`. -/
structure SmtpConfig where
  host : String
  port : JsPort
  secure : Bool
  authUser : String
  authPass : String
deriving DecidableEq

/-- The three transports `createEmailTransporter` can build. -/
inductive TransportConfig where
  | smtp : SmtpConfig → TransportConfig
  | gmail (authUser authPass : String) : TransportConfig
  | test : TransportConfig
deriving DecidableEq

/-- Function `createEmailTransporter` (src/server.js lines 74-118): custom SMTP
when host, user and password are all truthy; else Gmail when its user
and password are truthy; else the localhost test transport. -/
def createEmailTransporter (env : Env) : TransportConfig :=
  if optStrTruthy env.SMTP_HOST && optStrTruthy env.SMTP_USER
      && optStrTruthy env.SMTP_PASS then
    .smtp
      { host := env.SMTP_HOST.getD ""
        port :=
          match env.SMTP_PORT with
          | some p => if p = "" then .num 587 else .str p
          | none => .num 587
        secure := env.SMTP_SECURE == some "true"
        authUser := env.SMTP_USER.getD ""
        authPass := env.SMTP_PASS.getD "" }
  else if optStrTruthy env.EMAIL_USER && optStrTruthy env.EMAIL_PASS then
    .gmail (env.EMAIL_USER.getD "") (env.EMAIL_PASS.getD "")
  else
    .test

/-- Function `generateOrderNumber` (src/server.js lines 121-125), with
`Date.now()` and `Math.random()` passed in as `now` and `rnd`. -/
def generateOrderNumber (now : Nat) (rnd : ℚ) : String :=
  "ORD-" ++ toString now ++ "-" ++ toString (⌊rnd * 1000⌋.toNat)

/-- The parameters the route forwards to
`stripe.paymentIntents.create` (src/server.js lines 288-294). -/
structure PaymentIntentParams where
  amount : ℤ
  currency : String
  automaticPaymentMethodsEnabled : Bool
deriving DecidableEq

/-- Success body of POST /create-payment-intent. -/
structure PaymentIntentResponseBody where
  clientSecret : String
deriving DecidableEq

/-- POST /create-payment-intent (src/server.js lines 282-305): the
request forwarded to the processor for a given amount. -/
def createPaymentIntentParams (amount : ℚ) : PaymentIntentParams :=
  { amount := jsMathRound (amount * 100)
    currency := "usd"
    automaticPaymentMethodsEnabled := true }

/-- Success response of the route: the client secret from the
processor, verbatim. -/
def createPaymentIntentResponse (clientSecret : String) :
    PaymentIntentResponseBody :=
  { clientSecret := clientSecret }

/-- Shape of `selectedService` as destructured from the request body; every
field may be absent. -/
structure SelectedService where
  name : Option String
  price : Option ℚ
  categoryName : Option String
  category : Option String
deriving DecidableEq

/-- Shape of `paymentData` as destructured from the request body. -/
structure PaymentData where
  name : Option String
  email : Option String
deriving DecidableEq

/-- Body of a POST /send-invoice-email request (src/server.js lines
312-318); every field may be absent. -/
structure InvoiceRequest where
  selectedService : Option SelectedService
  paymentData : Option PaymentData
  paymentIntentId : Option String
  orderNumber : Option String
  orderDate : Option String

/-- The closure `calculateTotal = () => selectedService.price || 0`
(src/server.js line 339). A numeric 0 is falsy, so `0 || 0 = 0`. -/
def calculateTotal (selectedService : SelectedService) : ℚ :=
  match selectedService.price with
  | some p => if p = 0 then 0 else p
  | none => 0

/-- Rendering of `p || placeholder` inside a template literal, where
`p` is an optional number: the placeholder when `p` is absent or 0. -/
def jsNumOrPlaceholder (p : Option ℚ) (placeholder : String) : String :=
  match p with
  | some q => if q = 0 then placeholder else jsNumToString q
  | none => placeholder

/-- The `orderData` object assembled by the route and passed to
`generateEmailHTML` (src/server.js lines 342-349). `calculateTotal`
is the closure, called once inside the template. -/
structure OrderData where
  selectedService : SelectedService
  paymentData : PaymentData
  paymentIntentId : Option String
  orderNumber : String
  orderDate : String
  calculateTotal : Unit → ℚ

/-- Template text from the opening of the document to the `src`
attribute of the logo image (src/server.js lines 151-164). -/
def htmlTop : String := "
  <!DOCTYPE html>
  <html lang=\"en\">
  <head>
      <meta charset=\"UTF-8\">
      <meta name=\"viewport\" content=\"width=device-width, initial-scale=1.0\">
      <title>Order Confirmation - Impact Change</title>
  </head>
  <body style=\"margin: 0; padding: 0; font-family: Arial, sans-serif; background-color: #f5f5f5;\">
      <div style=\"max-width: 600px; margin: 0 auto; background-color: #ffffff; padding: 40px;\">

          <!-- Logo/Header -->
          <div style=\"text-align: center; margin-bottom: 30px;\">
              <img src=\""

/-- Template text between the logo URL and the greeting name
(src/server.js lines 164-177). -/
def htmlLogoToName : String := "\" alt=\"Impact Change\" style=\"max-height: 50px; max-width: 200px; display: block; margin: 0 auto;\" onerror=\"this.style.display=\x27none\x27;\" />
          </div>

          <!-- Main Title -->
          <div style=\"text-align: center; margin-bottom: 40px;\">
              <h1 style=\"color: #333; font-size: 24px; margin: 0; font-weight: bold;\">
                  Your Order is Confirmed!
              </h1>
          </div>

          <!-- Greeting -->
          <div style=\"margin-bottom: 30px;\">
              <p style=\"color: #999; font-size: 16px; margin: 0 0 10px 0;\">
                  Hi "

/-- Template text between the greeting name and the Order Number
label (src/server.js lines 177-191). -/
def htmlNameToOrderNumber : String := ",
              </p>
              <p style=\"color: #666; font-size: 14px; line-height: 1.6; margin: 0;\">
                  Thank you for your order! We have finished processing it and are excited to get started.
              </p>
          </div>

          <!-- Invoice Details Box -->
          <div style=\"border: 1px solid #ddd; padding: 20px; margin-bottom: 30px;\">
              <h3 style=\"color: #333; font-size: 16px; margin: 0 0 15px 0; font-weight: bold;\">
                  Invoice & Order Details
              </h3>

              <p style=\"color: #666; font-size: 14px; margin: 0 0 5px 0;\">
                  "

/-- Template text between the order number and the formatted order
date (src/server.js lines 191-194). -/
def htmlOrderNumberToDate : String := "
              </p>
              <p style=\"color: #666; font-size: 14px; margin: 0 0 20px 0;\">
                  <strong>Order Date:</strong> "

/-- Template text between the formatted date and the service-name
cell (src/server.js lines 194-212). -/
def htmlDateToServiceName : String := "
              </p>

              <!-- Product/Service Table -->
              <table style=\"width: 100%; border-collapse: collapse;\">
                  <thead>
                      <tr style=\"border-bottom: 1px solid #ddd;\">
                          <th style=\"text-align: left; padding: 10px 0; color: #666; font-size: 14px; font-weight: bold;\">
                              Product / Service
                          </th>
                          <th style=\"text-align: right; padding: 10px 0; color: #666; font-size: 14px; font-weight: bold;\">
                              Price
                          </th>
                      </tr>
                  </thead>
                  <tbody>
                      <tr>
                          <td style=\"padding: 15px 0; border-bottom: 1px solid #eee;\">
                              <span style=\"color: #666; font-size: 14px;\">"

/-- Template text between the service name and the line-item price
cell (src/server.js lines 212-215). -/
def htmlServiceNameToPrice : String := "</span>
                          </td>
                          <td style=\"text-align: right; padding: 15px 0; border-bottom: 1px solid #eee;\">
                              <span style=\"color: #666; font-size: 14px;\">"

/-- Template text between the line-item price and the subtotal value
(src/server.js lines 215-229). -/
def htmlPriceToSubtotal : String := "</span>
                          </td>
                      </tr>
                  </tbody>
              </table>

              <!-- Totals -->
              <div style=\"margin-top: 20px;\">
                  <table style=\"width: 100%;\">
                      <tr>
                          <td style=\"text-align: right; padding: 5px 0;\">
                              <span style=\"color: #666; font-size: 14px;\">Subtotal:</span>
                          </td>
                          <td style=\"text-align: right; padding: 5px 0; width: 80px;\">
                              <span style=\"color: #666; font-size: 14px;\">"

/-- Template text between the subtotal value and the total value
(src/server.js lines 229-237). -/
def htmlSubtotalToTotal : String := "</span>
                          </td>
                      </tr>
                      <tr>
                          <td style=\"text-align: right; padding: 10px 0; border-top: 1px solid #333;\">
                              <span style=\"color: #333; font-size: 16px; font-weight: bold;\">Total:</span>
                          </td>
                          <td style=\"text-align: right; padding: 10px 0; border-top: 1px solid #333; width: 80px;\">
                              <span style=\"color: #333; font-size: 16px; font-weight: bold;\">"

/-- Template text from the total value to the end of the document
(src/server.js lines 237-269). -/
def htmlTotalToEnd : String := "</span>
                          </td>
                      </tr>
                  </table>
              </div>
          </div>

          <!-- Next Steps -->
          <div style=\"margin-bottom: 40px;\">
              <h3 style=\"color: #333; font-size: 16px; margin: 0 0 15px 0; font-weight: bold;\">
                  Next Steps
              </h3>
              <p style=\"color: #666; font-size: 14px; line-height: 1.6; margin: 0;\">
                  Our team is now beginning work on your project. The estimated delivery time is <strong>one week</strong>. We will reach out if we have any questions and will send you an update midway through the process.
              </p>
          </div>

          <!-- Footer -->
          <div style=\"text-align: center; margin-top: 40px;\">
              <p style=\"color: #666; font-size: 14px; margin: 0 0 5px 0;\">
                  Thank you for your business!
              </p>
              <p style=\"color: #999; font-size: 12px; margin: 0 0 10px 0;\">
                  The Impact Change Team
              </p>
              <p style=\"color: #999; font-size: 12px; margin: 0;\">
                  www.impactchange.com
              </p>
          </div>
      </div>
  </body>
  </html>
  "

/-- Function `generateEmailHTML` (src/server.js lines 128-270). The external
`Date.toLocaleDateString` formatter is passed in as
`toLocaleDateStr`; `Date.now`/`Math.random` are not used here. The
template is the concatenation of the literal chunks above with the
interpolated values between them. -/
def generateEmailHTML (env : Env) (toLocaleDateStr : String → String)
    (orderData : OrderData) : String :=
  let selectedService := orderData.selectedService
  let paymentData := orderData.paymentData
  let orderNumber := orderData.orderNumber
  let orderDate := orderData.orderDate
  let total := orderData.calculateTotal ()
  let baseUrl := strOrDefault env.BASE_URL
    ("http://localhost:" ++ strOrDefault env.PORT ("4242"))
  let logoUrl := baseUrl ++ "/images/ImpactChange.png"
  htmlTop ++ logoUrl ++ htmlLogoToName
    ++ strOrDefault paymentData.name ("[Client Name]")
    ++ htmlNameToOrderNumber
    ++ "<strong>Order Number:</strong> " ++ orderNumber
    ++ htmlOrderNumberToDate
    ++ toLocaleDateStr orderDate
    ++ htmlDateToServiceName
    ++ strOrDefault selectedService.name ("[Service Name]")
    ++ htmlServiceNameToPrice
    ++ "$" ++ jsNumOrPlaceholder selectedService.price ("[Amount]")
    ++ htmlPriceToSubtotal
    ++ "$" ++ jsNumToString total
    ++ htmlSubtotalToTotal
    ++ "$" ++ jsNumToString total
    ++ htmlTotalToEnd

/-- The plain-text body of the invoice email (src/server.js lines
364-376): a template literal with `.trim()` applied. -/
def invoiceText (selectedService : SelectedService)
    (finalOrderNumber : String) (paymentIntentId : Option String) :
    String :=
  ("\nThank you for your order #" ++ finalOrderNumber
    ++ "!\n\nService: " ++ jsTemplateOptStr selectedService.name
    ++ "\nCategory: "
    ++ strOrDefault selectedService.categoryName
        (jsTemplateOptStr selectedService.category)
    ++ "\nTotal: $" ++ jsNumToString (calculateTotal selectedService)
    ++ "\n\nOur team will begin work on your project and deliver within one week.\n\nPayment Reference: "
    ++ strOrDefault paymentIntentId ("N/A")
    ++ "\n\nThank you for choosing Impact Change!\n            ").trim

/-- The `mailOptions` object handed to `transporter.sendMail`
(src/server.js lines 358-377); `from`/`to` are `fromAddr`/`toAddr` (Lean keywords). -/
structure MailOptions where
  fromAddr : String
  toAddr : String
  subject : String
  html : String
  text : String

/-- The `receivedData` diagnostics of the 400 response together with
its fixed error message (src/server.js lines 324-331). -/
structure ValidationErrorBody where
  error : String
  hasSelectedService : Bool
  hasPaymentData : Bool
  hasEmail : Bool
deriving DecidableEq

/-- Outcome of a POST /send-invoice-email request, up to the external
mail delivery: either the 400 validation rejection (no transporter is
created and no mail object is built in this branch), or a mail-send
attempt carrying the selected transport and the composed message. -/
inductive InvoiceResult where
  | badRequest (body : ValidationErrorBody)
  | sent (transport : TransportConfig) (mail : MailOptions)
      (orderNumber : String)

/-- HTTP status of an invoice-route outcome: 400 for the validation
rejection, 200 for a successful send. -/
def invoiceStatus : InvoiceResult → Nat
  | .badRequest _ => 400
  | .sent _ _ _ => 200

/-- Whether the outcome includes a mail-send attempt. -/
def mailAttempted : InvoiceResult → Bool
  | .badRequest _ => false
  | .sent _ _ _ => true

/-- The guard of the 400 rejection (src/server.js line 323):
`!selectedService || !paymentData?.email`. Any present object is
truthy; an optional-chained email is truthy iff present and
nonempty. -/
def requiredFieldsMissing (req : InvoiceRequest) : Bool :=
  !req.selectedService.isSome
    || !optStrTruthy (req.paymentData.bind (fun pd => pd.email))

/-- The 400 response body (src/server.js lines 324-331). -/
def validationErrorBody (req : InvoiceRequest) : ValidationErrorBody :=
  { error := "Missing required fields: selectedService or paymentData.email"
    hasSelectedService := req.selectedService.isSome
    hasPaymentData := req.paymentData.isSome
    hasEmail := optStrTruthy (req.paymentData.bind (fun pd => pd.email)) }

/-- POST /send-invoice-email (src/server.js lines 308-400) up to the
external send. `now`, `rnd` and `nowIso` stand for `Date.now()`,
`Math.random()` and `new Date().toISOString()`; `toLocaleDateStr` is
the external locale formatter. The second `badRequest` arm is
unreachable: a false guard forces both fields present. -/
def sendInvoiceEmailHandler (env : Env) (req : InvoiceRequest)
    (now : Nat) (rnd : ℚ) (nowIso : String)
    (toLocaleDateStr : String → String) : InvoiceResult :=
  if requiredFieldsMissing req then
    .badRequest (validationErrorBody req)
  else
    match req.selectedService, req.paymentData with
    | some selectedService, some paymentData =>
      let finalOrderNumber :=
        strOrDefault req.orderNumber (generateOrderNumber now rnd)
      let finalOrderDate := strOrDefault req.orderDate nowIso
      let orderData : OrderData :=
        { selectedService := selectedService
          paymentData := paymentData
          paymentIntentId := req.paymentIntentId
          orderNumber := finalOrderNumber
          orderDate := finalOrderDate
          calculateTotal := fun _ => calculateTotal selectedService }
      let transporter := createEmailTransporter env
      let emailHTML := generateEmailHTML env toLocaleDateStr orderData
      let mailOptions : MailOptions :=
        { fromAddr :=
            strOrDefault env.EMAIL_FROM
              ("\"Impact Change\" <"
                ++ strOrDefault env.EMAIL_USER ("noreply@impactchange.com")
                ++ ">")
          toAddr := paymentData.email.getD ""
          subject :=
            "Order Confirmation #" ++ finalOrderNumber ++ " - Impact Change"
          html := emailHTML
          text := invoiceText selectedService finalOrderNumber
            req.paymentIntentId }
      .sent transporter mailOptions finalOrderNumber
    | _, _ => .badRequest (validationErrorBody req)

/-- The catch-block 500 body of /send-invoice-email (src/server.js
lines 394-398): `stack` is present only when NODE_ENV is exactly
`development`. -/
structure SendFailureBody where
  error : String
  details : String
  stack : Option String
deriving DecidableEq

/-- Status and body produced by the catch block of the route for a mail
failure whose message is `message` and whose stack is `stack`. -/
def sendFailureResponse (env : Env) (message stack : String) :
    Nat × SendFailureBody :=
  (500,
    { error := "Failed to send invoice email"
      details := message
      stack :=
        if env.NODE_ENV == some "development" then some stack
        else none })

/-- A `selectedService` supplied as the empty object: all fields
absent, yet the object itself is truthy. -/
def emptyService : SelectedService :=
  { name := none, price := none, categoryName := none, category := none }

/-- A request whose `selectedService` is the empty object and whose
email is present: it passes validation. -/
def emptyServiceRequest : InvoiceRequest :=
  { selectedService := some emptyService
    paymentData := some { name := none, email := some "jane@example.com" }
    paymentIntentId := none
    orderNumber := some "ORD-1"
    orderDate := some "2025-01-05" }

theorem generateEmailHTML_split (env : Env) (fmt : String → String)
    (od : OrderData) :
    ∃ pre, generateEmailHTML env fmt od =
      pre ++ "<strong>Order Number:</strong> " ++ od.orderNumber
        ++ htmlOrderNumberToDate ++ fmt od.orderDate ++ htmlDateToServiceName
        ++ strOrDefault od.selectedService.name ("[Service Name]")
        ++ htmlServiceNameToPrice ++ "$"
        ++ jsNumOrPlaceholder od.selectedService.price ("[Amount]")
        ++ htmlPriceToSubtotal ++ "$" ++ jsNumToString (od.calculateTotal ())
        ++ htmlSubtotalToTotal ++ "$" ++ jsNumToString (od.calculateTotal ())
        ++ htmlTotalToEnd :=
  ⟨_, rfl⟩

/-- On a request whose `selectedService` is present and whose
`paymentData.email` is truthy, the route reaches the send: this
lemma computes the resulting transport, mail options and final order
number. -/
theorem sendInvoiceEmailHandler_valid (env : Env) (req : InvoiceRequest)
    (now : Nat) (rnd : ℚ) (nowIso : String) (fmt : String → String)
    (svc : SelectedService) (pd : PaymentData) (e : String)
    (hs : req.selectedService = some svc) (hp : req.paymentData = some pd)
    (he : pd.email = some e) (hne : e ≠ "") :
    sendInvoiceEmailHandler env req now rnd nowIso fmt =
      .sent (createEmailTransporter env)
        { fromAddr :=
            strOrDefault env.EMAIL_FROM
              ("\"Impact Change\" <"
                ++ strOrDefault env.EMAIL_USER ("noreply@impactchange.com")
                ++ ">")
          toAddr := e
          subject :=
            "Order Confirmation #"
              ++ strOrDefault req.orderNumber (generateOrderNumber now rnd)
              ++ " - Impact Change"
          html :=
            generateEmailHTML env fmt
              { selectedService := svc
                paymentData := pd
                paymentIntentId := req.paymentIntentId
                orderNumber :=
                  strOrDefault req.orderNumber (generateOrderNumber now rnd)
                orderDate := strOrDefault req.orderDate nowIso
                calculateTotal := fun _ => calculateTotal svc }
          text :=
            invoiceText svc
              (strOrDefault req.orderNumber (generateOrderNumber now rnd))
              req.paymentIntentId }
        (strOrDefault req.orderNumber (generateOrderNumber now rnd)) := by
  have hguard : requiredFieldsMissing req = false := by
    simp [requiredFieldsMissing, hs, hp, he, optStrTruthy, strTruthy, hne]
  simp [sendInvoiceEmailHandler, hguard, hs, hp, he]

/-- The plain-text body decomposes as the trim of a string beginning
with the order-number reference. -/
theorem invoiceText_split (svc : SelectedService) (onum : String)
    (pid : Option String) :
    ∃ rest, invoiceText svc onum pid =
      ("\nThank you for your order #" ++ onum ++ rest).trim := by
  refine ⟨"!\n\nService: " ++ jsTemplateOptStr svc.name ++ "\nCategory: "
    ++ strOrDefault svc.categoryName (jsTemplateOptStr svc.category)
    ++ "\nTotal: $" ++ jsNumToString (calculateTotal svc)
    ++ "\n\nOur team will begin work on your project and deliver within one week.\n\nPayment Reference: "
    ++ strOrDefault pid ("N/A")
    ++ "\n\nThank you for choosing Impact Change!\n            ", ?_⟩
  unfold invoiceText
  congr 1
  simp [String.append_assoc]

/-- C1: For every POST /create-payment-intent request with amount
A > 0, the amount forwarded to the payment processor is
`round(A*100)` minor units, the currency is always "usd", automatic
payment-method selection is enabled, and the client secret from
the processor is returned verbatim; in particular amount 49.99 yields 4999
minor units. -/
theorem claim_C1_paymentIntent_forwarding (amount : ℚ) (secret : String)
    (hpos : 0 < amount) :
    (createPaymentIntentParams amount).amount = jsMathRound (amount * 100) ∧
    (createPaymentIntentParams amount).currency = "usd" ∧
    (createPaymentIntentParams amount).automaticPaymentMethodsEnabled = true ∧
    (createPaymentIntentResponse secret).clientSecret = secret ∧
    (createPaymentIntentParams (4999/100)).amount = 4999 := by
  refine ⟨rfl, rfl, rfl, rfl, ?_⟩
  simp only [createPaymentIntentParams, jsMathRound]
  norm_num

theorem claim_C1_witness :
    (createPaymentIntentParams (4999/100)).amount =
        jsMathRound ((4999/100) * 100) ∧
    (createPaymentIntentParams (4999/100)).currency = "usd" ∧
    (createPaymentIntentParams (4999/100)).automaticPaymentMethodsEnabled
        = true ∧
    (createPaymentIntentResponse ("pi_123_secret")).clientSecret
        = "pi_123_secret" ∧
    (createPaymentIntentParams (4999/100)).amount = 4999 :=
  claim_C1_paymentIntent_forwarding (4999/100) "pi_123_secret"
    (by norm_num)

/-- C2: For every POST /send-invoice-email request in which
`selectedService` is missing or `paymentData.email` is missing, the
response is 400 with the fixed missing-fields error and the
`receivedData` diagnostics, and no mail-send is attempted (the
outcome carries no transport and no mail). -/
theorem claim_C2_validation_rejects (env : Env) (req : InvoiceRequest)
    (now : Nat) (rnd : ℚ) (nowIso : String) (fmt : String → String)
    (h : req.selectedService = none
      ∨ req.paymentData.bind (fun pd => pd.email) = none) :
    sendInvoiceEmailHandler env req now rnd nowIso fmt =
      .badRequest (validationErrorBody req) ∧
    invoiceStatus (sendInvoiceEmailHandler env req now rnd nowIso fmt)
      = 400 ∧
    mailAttempted (sendInvoiceEmailHandler env req now rnd nowIso fmt)
      = false ∧
    (validationErrorBody req).error =
      "Missing required fields: selectedService or paymentData.email" ∧
    (validationErrorBody req).hasSelectedService =
      req.selectedService.isSome ∧
    (validationErrorBody req).hasEmail =
      optStrTruthy (req.paymentData.bind (fun pd => pd.email)) := by
  have hm : requiredFieldsMissing req = true := by
    rcases h with h | h
    · simp [requiredFieldsMissing, h]
    · simp [requiredFieldsMissing, h, optStrTruthy]
  refine ⟨?_, ?_, ?_, rfl, rfl, rfl⟩ <;>
    simp [sendInvoiceEmailHandler, hm, invoiceStatus, mailAttempted]

theorem claim_C2_witness :
    sendInvoiceEmailHandler
        { STRIPE_SECRET_KEY := some "sk", SMTP_HOST := none,
          SMTP_PORT := none, SMTP_SECURE := none, SMTP_USER := none,
          SMTP_PASS := none, EMAIL_USER := none, EMAIL_PASS := none,
          EMAIL_FROM := none, NODE_ENV := none, BASE_URL := none,
          PORT := none }
        { selectedService := none,
          paymentData := some { name := none, email := some "jane@example.com" },
          paymentIntentId := none, orderNumber := none, orderDate := none }
        1700000000000 (1/2) "2025-01-05T00:00:00.000Z" id =
      .badRequest (validationErrorBody
        { selectedService := none,
          paymentData := some { name := none, email := some "jane@example.com" },
          paymentIntentId := none, orderNumber := none, orderDate := none }) ∧
    invoiceStatus (sendInvoiceEmailHandler
        { STRIPE_SECRET_KEY := some "sk", SMTP_HOST := none,
          SMTP_PORT := none, SMTP_SECURE := none, SMTP_USER := none,
          SMTP_PASS := none, EMAIL_USER := none, EMAIL_PASS := none,
          EMAIL_FROM := none, NODE_ENV := none, BASE_URL := none,
          PORT := none }
        { selectedService := none,
          paymentData := some { name := none, email := some "jane@example.com" },
          paymentIntentId := none, orderNumber := none, orderDate := none }
        1700000000000 (1/2) "2025-01-05T00:00:00.000Z" id) = 400 ∧
    mailAttempted (sendInvoiceEmailHandler
        { STRIPE_SECRET_KEY := some "sk", SMTP_HOST := none,
          SMTP_PORT := none, SMTP_SECURE := none, SMTP_USER := none,
          SMTP_PASS := none, EMAIL_USER := none, EMAIL_PASS := none,
          EMAIL_FROM := none, NODE_ENV := none, BASE_URL := none,
          PORT := none }
        { selectedService := none,
          paymentData := some { name := none, email := some "jane@example.com" },
          paymentIntentId := none, orderNumber := none, orderDate := none }
        1700000000000 (1/2) "2025-01-05T00:00:00.000Z" id) = false ∧
    (validationErrorBody
        { selectedService := none,
          paymentData := some { name := none, email := some "jane@example.com" },
          paymentIntentId := none, orderNumber := none, orderDate := none }).error =
      "Missing required fields: selectedService or paymentData.email" ∧
    (validationErrorBody
        { selectedService := none,
          paymentData := some { name := none, email := some "jane@example.com" },
          paymentIntentId := none, orderNumber := none, orderDate := none }).hasSelectedService =
      (Option.none (α := SelectedService)).isSome ∧
    (validationErrorBody
        { selectedService := none,
          paymentData := some { name := none, email := some "jane@example.com" },
          paymentIntentId := none, orderNumber := none, orderDate := none }).hasEmail =
      optStrTruthy ((some (PaymentData.mk none (some "jane@example.com"))).bind
        (fun pd => pd.email)) :=
  claim_C2_validation_rejects _ _ 1700000000000 (1/2)
    "2025-01-05T00:00:00.000Z" id (Or.inl rfl)

/-- C7: When sending the invoice email fails, the route responds 500
with the fixed error message and the failure details, and the stack
trace is included only when NODE_ENV is non-production (it is in fact
included exactly when NODE_ENV is "development", so it is omitted
whenever the environment is production). -/
theorem claim_C7_failure_response (env : Env) (message stack : String) :
    (sendFailureResponse env message stack).1 = 500 ∧
    (sendFailureResponse env message stack).2.error =
      "Failed to send invoice email" ∧
    (sendFailureResponse env message stack).2.details = message ∧
    (env.NODE_ENV = some "production" →
      (sendFailureResponse env message stack).2.stack = none) ∧
    ((sendFailureResponse env message stack).2.stack ≠ none →
      env.NODE_ENV ≠ some "production") := by
  refine ⟨rfl, rfl, rfl, ?_, ?_⟩
  · intro hprod
    simp [sendFailureResponse, hprod]
  · intro hne hprod
    exact hne (by simp [sendFailureResponse, hprod])

theorem claim_C7_witness :
    (sendFailureResponse
        { STRIPE_SECRET_KEY := some "sk", SMTP_HOST := none,
          SMTP_PORT := none, SMTP_SECURE := none, SMTP_USER := none,
          SMTP_PASS := none, EMAIL_USER := none, EMAIL_PASS := none,
          EMAIL_FROM := none, NODE_ENV := some "production",
          BASE_URL := none, PORT := none }
        "connect ECONNREFUSED" "stacktrace").2.stack = none :=
  (claim_C7_failure_response
    { STRIPE_SECRET_KEY := some "sk", SMTP_HOST := none,
      SMTP_PORT := none, SMTP_SECURE := none, SMTP_USER := none,
      SMTP_PASS := none, EMAIL_USER := none, EMAIL_PASS := none,
      EMAIL_FROM := none, NODE_ENV := some "production",
      BASE_URL := none, PORT := none }
    "connect ECONNREFUSED" "stacktrace").2.2.2.1 rfl

/-- C4: `createEmailTransporter` selects by first match: SMTP when
host, user and password are all set (port defaulting to 587, secure
flag from the SMTP_SECURE setting, basic auth); else Gmail when its
user and password are set; else the local test transport. -/
theorem claim_C4_transport_selection (env : Env) :
    ((optStrTruthy env.SMTP_HOST && optStrTruthy env.SMTP_USER
        && optStrTruthy env.SMTP_PASS) = true →
      createEmailTransporter env =
        .smtp
          { host := env.SMTP_HOST.getD ""
            port :=
              match env.SMTP_PORT with
              | some p => if p = "" then .num 587 else .str p
              | none => .num 587
            secure := env.SMTP_SECURE == some "true"
            authUser := env.SMTP_USER.getD ""
            authPass := env.SMTP_PASS.getD "" }) ∧
    ((optStrTruthy env.SMTP_HOST && optStrTruthy env.SMTP_USER
        && optStrTruthy env.SMTP_PASS) = false →
      (optStrTruthy env.EMAIL_USER && optStrTruthy env.EMAIL_PASS) = true →
      createEmailTransporter env =
        .gmail (env.EMAIL_USER.getD "") (env.EMAIL_PASS.getD "")) ∧
    ((optStrTruthy env.SMTP_HOST && optStrTruthy env.SMTP_USER
        && optStrTruthy env.SMTP_PASS) = false →
      (optStrTruthy env.EMAIL_USER && optStrTruthy env.EMAIL_PASS) = false →
      createEmailTransporter env = .test) ∧
    (env.SMTP_PORT = none →
      ∀ cfg, createEmailTransporter env = .smtp cfg →
        cfg.port = .num 587) := by
  refine ⟨?_, ?_, ?_, ?_⟩
  · intro h
    simp [createEmailTransporter, h]
  · intro h1 h2
    simp [createEmailTransporter, h1, h2]
  · intro h1 h2
    simp [createEmailTransporter, h1, h2]
  · intro hnone cfg hcfg
    by_cases h : (optStrTruthy env.SMTP_HOST && optStrTruthy env.SMTP_USER
        && optStrTruthy env.SMTP_PASS) = true
    · simp only [createEmailTransporter, h, if_true] at hcfg
      rw [TransportConfig.smtp.injEq] at hcfg
      rw [← hcfg, hnone]
    · simp only [createEmailTransporter, h, if_false, Bool.not_eq_true] at hcfg
      rw [if_neg (by simp_all)] at hcfg
      split at hcfg <;> simp_all

theorem claim_C4_witness :
    (createEmailTransporter
        { STRIPE_SECRET_KEY := some "sk", SMTP_HOST := some "smtp.example.com",
          SMTP_PORT := none, SMTP_SECURE := some "true",
          SMTP_USER := some "u", SMTP_PASS := some "p",
          EMAIL_USER := none, EMAIL_PASS := none, EMAIL_FROM := none,
          NODE_ENV := none, BASE_URL := none, PORT := none } =
      .smtp
        { host := "smtp.example.com", port := .num 587, secure := true,
          authUser := "u", authPass := "p" }) ∧
    (createEmailTransporter
        { STRIPE_SECRET_KEY := some "sk", SMTP_HOST := none,
          SMTP_PORT := none, SMTP_SECURE := none, SMTP_USER := none,
          SMTP_PASS := none, EMAIL_USER := some "g@gmail.com",
          EMAIL_PASS := some "gp", EMAIL_FROM := none,
          NODE_ENV := none, BASE_URL := none, PORT := none } =
      .gmail "g@gmail.com" "gp") ∧
    (createEmailTransporter
        { STRIPE_SECRET_KEY := some "sk", SMTP_HOST := none,
          SMTP_PORT := none, SMTP_SECURE := none, SMTP_USER := none,
          SMTP_PASS := none, EMAIL_USER := none, EMAIL_PASS := none,
          EMAIL_FROM := none, NODE_ENV := none, BASE_URL := none,
          PORT := none } = .test) := by
  refine ⟨?_, ?_, ?_⟩
  · exact (claim_C4_transport_selection _).1 (by decide)
  · exact (claim_C4_transport_selection _).2.1 (by decide) (by decide)
  · exact (claim_C4_transport_selection _).2.2.1 (by decide) (by decide)

/-- C3: For every POST /send-invoice-email request that supplies an
orderNumber (a truthy string), the composer uses that exact value
verbatim in the subject
"Order Confirmation #<orderNumber> - Impact Change", in the HTML
Order Number line of the HTML body, and in the plain-text body. -/
theorem claim_C3_orderNumber_verbatim (env : Env) (req : InvoiceRequest)
    (now : Nat) (rnd : ℚ) (nowIso : String) (fmt : String → String)
    (svc : SelectedService) (pd : PaymentData) (e onum : String)
    (hs : req.selectedService = some svc) (hp : req.paymentData = some pd)
    (he : pd.email = some e) (hne : e ≠ "")
    (ho : req.orderNumber = some onum) (hone : onum ≠ "") :
    ∃ t mail,
      sendInvoiceEmailHandler env req now rnd nowIso fmt =
        .sent t mail onum ∧
      mail.subject = "Order Confirmation #" ++ onum ++ " - Impact Change" ∧
      (∃ pre post, mail.html =
        pre ++ "<strong>Order Number:</strong> " ++ onum ++ post) ∧
      (∃ rest, mail.text =
        ("\nThank you for your order #" ++ onum ++ rest).trim) := by
  have hfin : strOrDefault req.orderNumber (generateOrderNumber now rnd)
      = onum := by
    simp [strOrDefault, ho, hone]
  rw [sendInvoiceEmailHandler_valid env req now rnd nowIso fmt svc pd e
    hs hp he hne, hfin]
  refine ⟨_, _, rfl, rfl, ?_, ?_⟩
  · obtain ⟨pre, hpre⟩ := generateEmailHTML_split env fmt
      { selectedService := svc, paymentData := pd,
        paymentIntentId := req.paymentIntentId, orderNumber := onum,
        orderDate := strOrDefault req.orderDate nowIso,
        calculateTotal := fun _ => calculateTotal svc }
    refine ⟨pre, htmlOrderNumberToDate
      ++ fmt (strOrDefault req.orderDate nowIso)
      ++ htmlDateToServiceName ++ strOrDefault svc.name ("[Service Name]")
      ++ htmlServiceNameToPrice ++ "$"
      ++ jsNumOrPlaceholder svc.price ("[Amount]")
      ++ htmlPriceToSubtotal ++ "$" ++ jsNumToString (calculateTotal svc)
      ++ htmlSubtotalToTotal ++ "$" ++ jsNumToString (calculateTotal svc)
      ++ htmlTotalToEnd, ?_⟩
    rw [hpre]
    simp [String.append_assoc]
  · exact invoiceText_split svc onum req.paymentIntentId

theorem claim_C3_witness :
    ∃ t mail,
      sendInvoiceEmailHandler
          { STRIPE_SECRET_KEY := some "sk", SMTP_HOST := none,
            SMTP_PORT := none, SMTP_SECURE := none, SMTP_USER := none,
            SMTP_PASS := none, EMAIL_USER := none, EMAIL_PASS := none,
            EMAIL_FROM := none, NODE_ENV := none, BASE_URL := none,
            PORT := none }
          { selectedService := some
              { name := some "Logo Design", price := some 150,
                categoryName := some "Design", category := none },
            paymentData := some
              { name := some "Jane Doe", email := some "jane@example.com" },
            paymentIntentId := some "pi_1",
            orderNumber := some "ORD-CUSTOM-7",
            orderDate := some "2025-01-05" }
          1700000000000 (1/2) "2025-01-05T00:00:00.000Z" id =
        .sent t mail "ORD-CUSTOM-7" ∧
      mail.subject =
        "Order Confirmation #" ++ "ORD-CUSTOM-7" ++ " - Impact Change" ∧
      (∃ pre post, mail.html =
        pre ++ "<strong>Order Number:</strong> " ++ "ORD-CUSTOM-7" ++ post) ∧
      (∃ rest, mail.text =
        ("\nThank you for your order #" ++ "ORD-CUSTOM-7" ++ rest).trim) :=
  claim_C3_orderNumber_verbatim _ _ 1700000000000 (1/2)
    "2025-01-05T00:00:00.000Z" id _ _ "jane@example.com" "ORD-CUSTOM-7"
    rfl rfl rfl (by decide) rfl (by decide)

/-- C5: For every invoice composition, the computed total equals
`selectedService.price` when present, else 0, and this same rendered
value appears in both the HTML subtotal row and the HTML total row
(the two rows are separated exactly by the fixed chunk
`htmlSubtotalToTotal`, which closes the subtotal row and opens the
total row). -/
theorem claim_C5_total_rows (env : Env) (fmt : String → String)
    (svc : SelectedService) (pd : PaymentData) (pid : Option String)
    (onum odate : String) :
    calculateTotal svc = svc.price.getD 0 ∧
    ∃ pre post,
      generateEmailHTML env fmt
          { selectedService := svc, paymentData := pd,
            paymentIntentId := pid, orderNumber := onum,
            orderDate := odate,
            calculateTotal := fun _ => calculateTotal svc } =
        pre ++ "$" ++ jsNumToString (calculateTotal svc)
          ++ htmlSubtotalToTotal ++ "$" ++ jsNumToString (calculateTotal svc)
          ++ post := by
  constructor
  · rcases hp : svc.price with _ | p
    · simp [calculateTotal, hp]
    · simp only [calculateTotal, hp, Option.getD_some]
      by_cases hz : p = 0
      · simp [hz]
      · simp [hz]
  · obtain ⟨pre, hpre⟩ := generateEmailHTML_split env fmt
      { selectedService := svc, paymentData := pd,
        paymentIntentId := pid, orderNumber := onum,
        orderDate := odate,
        calculateTotal := fun _ => calculateTotal svc }
    refine ⟨pre ++ "<strong>Order Number:</strong> " ++ onum
      ++ htmlOrderNumberToDate ++ fmt odate ++ htmlDateToServiceName
      ++ strOrDefault svc.name ("[Service Name]")
      ++ htmlServiceNameToPrice ++ "$"
      ++ jsNumOrPlaceholder svc.price ("[Amount]")
      ++ htmlPriceToSubtotal, htmlTotalToEnd, ?_⟩
    rw [hpre]

/-- C6: For every POST /send-invoice-email request without an
orderNumber, the identifier used for the send is
`ORD-<epoch-millis>-<r>` with `r = ⌊Math.random() * 1000⌋` an integer
in 0..999 (uniqueness within one millisecond is not modelled, as the
code guarantees none). -/
theorem claim_C6_generated_pattern (env : Env) (req : InvoiceRequest)
    (now : Nat) (rnd : ℚ) (nowIso : String) (fmt : String → String)
    (svc : SelectedService) (pd : PaymentData) (e : String)
    (hs : req.selectedService = some svc) (hp : req.paymentData = some pd)
    (he : pd.email = some e) (hne : e ≠ "")
    (ho : req.orderNumber = none) (h0 : 0 ≤ rnd) (h1 : rnd < 1) :
    ∃ t mail n, n ≤ 999 ∧
      generateOrderNumber now rnd =
        "ORD-" ++ toString now ++ "-" ++ toString n ∧
      sendInvoiceEmailHandler env req now rnd nowIso fmt =
        .sent t mail ("ORD-" ++ toString now ++ "-" ++ toString n) := by
  have hn : (⌊rnd * 1000⌋).toNat ≤ 999 := by
    have h2 : ⌊rnd * 1000⌋ < 1000 :=
      Int.floor_lt.mpr (by push_cast; linarith)
    omega
  have hfin : strOrDefault req.orderNumber (generateOrderNumber now rnd)
      = generateOrderNumber now rnd := by
    simp [strOrDefault, ho]
  rw [sendInvoiceEmailHandler_valid env req now rnd nowIso fmt svc pd e
    hs hp he hne, hfin]
  exact ⟨_, _, (⌊rnd * 1000⌋).toNat, hn, rfl, rfl⟩

theorem claim_C6_witness :
    ∃ t mail n, n ≤ 999 ∧
      generateOrderNumber 1700000000000 (1/2) =
        "ORD-" ++ toString 1700000000000 ++ "-" ++ toString n ∧
      sendInvoiceEmailHandler
          { STRIPE_SECRET_KEY := some "sk", SMTP_HOST := none,
            SMTP_PORT := none, SMTP_SECURE := none, SMTP_USER := none,
            SMTP_PASS := none, EMAIL_USER := none, EMAIL_PASS := none,
            EMAIL_FROM := none, NODE_ENV := none, BASE_URL := none,
            PORT := none }
          { selectedService := some
              { name := some "Logo Design", price := some 150,
                categoryName := some "Design", category := none },
            paymentData := some
              { name := some "Jane Doe", email := some "jane@example.com" },
            paymentIntentId := none, orderNumber := none,
            orderDate := none }
          1700000000000 (1/2) "2025-01-05T00:00:00.000Z" id =
        .sent t mail ("ORD-" ++ toString 1700000000000 ++ "-" ++ toString n) :=
  claim_C6_generated_pattern _ _ 1700000000000 (1/2)
    "2025-01-05T00:00:00.000Z" id _ _ "jane@example.com"
    rfl rfl rfl (by decide) rfl (by norm_num) (by norm_num)

/-- C9: The orderNumber default applies to every falsy supplied
value: a request supplying an empty-string orderNumber has it
discarded and a fresh generated identifier used (which, beginning
with "ORD-", is never the supplied empty string). -/
theorem claim_C9_emptyString_regenerated (env : Env) (req : InvoiceRequest)
    (now : Nat) (rnd : ℚ) (nowIso : String) (fmt : String → String)
    (svc : SelectedService) (pd : PaymentData) (e : String)
    (hs : req.selectedService = some svc) (hp : req.paymentData = some pd)
    (he : pd.email = some e) (hne : e ≠ "")
    (ho : req.orderNumber = some "") :
    ∃ t mail,
      sendInvoiceEmailHandler env req now rnd nowIso fmt =
        .sent t mail (generateOrderNumber now rnd) ∧
      mail.subject = "Order Confirmation #" ++ generateOrderNumber now rnd
        ++ " - Impact Change" ∧
      generateOrderNumber now rnd ≠ "" := by
  have hfin : strOrDefault req.orderNumber (generateOrderNumber now rnd)
      = generateOrderNumber now rnd := by
    simp [strOrDefault, ho]
  rw [sendInvoiceEmailHandler_valid env req now rnd nowIso fmt svc pd e
    hs hp he hne, hfin]
  refine ⟨_, _, rfl, rfl, ?_⟩
  intro hemp
  have hlen := congrArg String.length hemp
  simp [generateOrderNumber, String.length_append] at hlen
  exact absurd hlen.1.1.1 (by decide)

theorem claim_C9_witness :
    ∃ t mail,
      sendInvoiceEmailHandler
          { STRIPE_SECRET_KEY := some "sk", SMTP_HOST := none,
            SMTP_PORT := none, SMTP_SECURE := none, SMTP_USER := none,
            SMTP_PASS := none, EMAIL_USER := none, EMAIL_PASS := none,
            EMAIL_FROM := none, NODE_ENV := none, BASE_URL := none,
            PORT := none }
          { selectedService := some
              { name := some "Logo Design", price := some 150,
                categoryName := some "Design", category := none },
            paymentData := some
              { name := some "Jane Doe", email := some "jane@example.com" },
            paymentIntentId := none, orderNumber := some "",
            orderDate := none }
          1700000000000 (1/2) "2025-01-05T00:00:00.000Z" id =
        .sent t mail (generateOrderNumber 1700000000000 (1/2)) ∧
      mail.subject = "Order Confirmation #"
        ++ generateOrderNumber 1700000000000 (1/2) ++ " - Impact Change" ∧
      generateOrderNumber 1700000000000 (1/2) ≠ "" :=
  claim_C9_emptyString_regenerated _ _ 1700000000000 (1/2)
    "2025-01-05T00:00:00.000Z" id _ _ "jane@example.com"
    rfl rfl rfl (by decide) rfl

/-- C8: POST /send-invoice-email returns the 400 validation error iff
`selectedService` is absent or `paymentData.email` is falsy; in
particular an empty-object `selectedService` passes validation, a
send is attempted, and the HTML renders the literal placeholder
"[Service Name]" with a total of $0. -/
theorem claim_C8_validation_iff (env : Env) (req : InvoiceRequest)
    (now : Nat) (rnd : ℚ) (nowIso : String) (fmt : String → String) :
    ((∃ b, sendInvoiceEmailHandler env req now rnd nowIso fmt =
        .badRequest b) ↔
      (req.selectedService.isSome = false
        ∨ optStrTruthy (req.paymentData.bind (fun pd => pd.email))
            = false)) ∧
    (∃ t mail,
      sendInvoiceEmailHandler env emptyServiceRequest now rnd nowIso fmt
        = .sent t mail "ORD-1" ∧
      mailAttempted
        (sendInvoiceEmailHandler env emptyServiceRequest now rnd nowIso
          fmt) = true ∧
      (∃ pre post, mail.html = pre ++ "[Service Name]" ++ post) ∧
      (∃ pre post, mail.html =
        pre ++ "$" ++ jsNumToString (calculateTotal emptyService)
          ++ htmlSubtotalToTotal
          ++ "$" ++ jsNumToString (calculateTotal emptyService) ++ post) ∧
      jsNumToString (calculateTotal emptyService) = "0") := by
  constructor
  · by_cases hm : requiredFieldsMissing req = true
    · constructor
      · intro _
        by_cases hsel : req.selectedService.isSome = true
        · right
          simp [requiredFieldsMissing, hsel] at hm
          simp [hm]
        · left
          simpa using hsel
      · intro _
        exact ⟨validationErrorBody req,
          by simp [sendInvoiceEmailHandler, hm]⟩
    · have hm' : requiredFieldsMissing req = false := by simpa using hm
      have hsome : req.selectedService.isSome = true ∧
          optStrTruthy (req.paymentData.bind (fun pd => pd.email))
            = true := by
        simpa [requiredFieldsMissing] using hm'
      obtain ⟨svc, hs⟩ := Option.isSome_iff_exists.mp hsome.1
      rcases hbe : req.paymentData.bind (fun pd => pd.email) with _ | e
      · rw [hbe] at hsome
        simp [optStrTruthy] at hsome
      · have hne : e ≠ "" := by
          have := hsome.2
          rw [hbe] at this
          simpa [optStrTruthy, strTruthy] using this
        obtain ⟨pd, hp, he⟩ := Option.bind_eq_some.mp hbe
        rw [sendInvoiceEmailHandler_valid env req now rnd nowIso fmt
          svc pd e hs hp he hne]
        constructor
        · rintro ⟨b, hb⟩
          simp at hb
        · rintro (h | h)
          · rw [hsome.1] at h
            cases h
          · simp [optStrTruthy, strTruthy] at h
            exact absurd h hne
  · have hval := sendInvoiceEmailHandler_valid env emptyServiceRequest
      now rnd nowIso fmt emptyService
      { name := none, email := some "jane@example.com" }
      "jane@example.com" rfl rfl rfl (by decide)
    have hfin : strOrDefault emptyServiceRequest.orderNumber
        (generateOrderNumber now rnd) = "ORD-1" := by
      simp [emptyServiceRequest, strOrDefault]
    rw [hfin] at hval
    rw [hval]
    have hzero : jsNumToString (calculateTotal emptyService) = "0" := by
      decide
    refine ⟨_, _, rfl, rfl, ?_, ?_, hzero⟩
    · obtain ⟨pre, hpre⟩ := generateEmailHTML_split env fmt
        { selectedService := emptyService
          paymentData := { name := none, email := some "jane@example.com" }
          paymentIntentId := emptyServiceRequest.paymentIntentId
          orderNumber := "ORD-1"
          orderDate := strOrDefault emptyServiceRequest.orderDate nowIso
          calculateTotal := fun _ => calculateTotal emptyService }
      refine ⟨pre ++ "<strong>Order Number:</strong> " ++ "ORD-1"
        ++ htmlOrderNumberToDate
        ++ fmt (strOrDefault emptyServiceRequest.orderDate nowIso)
        ++ htmlDateToServiceName,
        htmlServiceNameToPrice ++ "$"
        ++ jsNumOrPlaceholder emptyService.price ("[Amount]")
        ++ htmlPriceToSubtotal ++ "$"
        ++ jsNumToString (calculateTotal emptyService)
        ++ htmlSubtotalToTotal ++ "$"
        ++ jsNumToString (calculateTotal emptyService)
        ++ htmlTotalToEnd, ?_⟩
      rw [hpre]
      simp [emptyService, strOrDefault, String.append_assoc]
    · obtain ⟨pre, hpre⟩ := generateEmailHTML_split env fmt
        { selectedService := emptyService
          paymentData := { name := none, email := some "jane@example.com" }
          paymentIntentId := emptyServiceRequest.paymentIntentId
          orderNumber := "ORD-1"
          orderDate := strOrDefault emptyServiceRequest.orderDate nowIso
          calculateTotal := fun _ => calculateTotal emptyService }
      refine ⟨pre ++ "<strong>Order Number:</strong> " ++ "ORD-1"
        ++ htmlOrderNumberToDate
        ++ fmt (strOrDefault emptyServiceRequest.orderDate nowIso)
        ++ htmlDateToServiceName
        ++ strOrDefault emptyService.name ("[Service Name]")
        ++ htmlServiceNameToPrice ++ "$"
        ++ jsNumOrPlaceholder emptyService.price ("[Amount]")
        ++ htmlPriceToSubtotal,
        htmlTotalToEnd, ?_⟩
      rw [hpre]

theorem claim_C8_witness :
    ((∃ b, sendInvoiceEmailHandler
        { STRIPE_SECRET_KEY := some "sk", SMTP_HOST := none,
          SMTP_PORT := none, SMTP_SECURE := none, SMTP_USER := none,
          SMTP_PASS := none, EMAIL_USER := none, EMAIL_PASS := none,
          EMAIL_FROM := none, NODE_ENV := none, BASE_URL := none,
          PORT := none }
        emptyServiceRequest 1700000000000 (1/2)
        "2025-01-05T00:00:00.000Z" id = .badRequest b) ↔
      (emptyServiceRequest.selectedService.isSome = false
        ∨ optStrTruthy (emptyServiceRequest.paymentData.bind
            (fun pd => pd.email)) = false)) ∧
    (∃ t mail,
      sendInvoiceEmailHandler
        { STRIPE_SECRET_KEY := some "sk", SMTP_HOST := none,
          SMTP_PORT := none, SMTP_SECURE := none, SMTP_USER := none,
          SMTP_PASS := none, EMAIL_USER := none, EMAIL_PASS := none,
          EMAIL_FROM := none, NODE_ENV := none, BASE_URL := none,
          PORT := none }
        emptyServiceRequest 1700000000000 (1/2)
        "2025-01-05T00:00:00.000Z" id = .sent t mail "ORD-1" ∧
      mailAttempted (sendInvoiceEmailHandler
        { STRIPE_SECRET_KEY := some "sk", SMTP_HOST := none,
          SMTP_PORT := none, SMTP_SECURE := none, SMTP_USER := none,
          SMTP_PASS := none, EMAIL_USER := none, EMAIL_PASS := none,
          EMAIL_FROM := none, NODE_ENV := none, BASE_URL := none,
          PORT := none }
        emptyServiceRequest 1700000000000 (1/2)
        "2025-01-05T00:00:00.000Z" id) = true ∧
      (∃ pre post, mail.html = pre ++ "[Service Name]" ++ post) ∧
      (∃ pre post, mail.html =
        pre ++ "$" ++ jsNumToString (calculateTotal emptyService)
          ++ htmlSubtotalToTotal
          ++ "$" ++ jsNumToString (calculateTotal emptyService) ++ post) ∧
      jsNumToString (calculateTotal emptyService) = "0") :=
  claim_C8_validation_iff
    { STRIPE_SECRET_KEY := some "sk", SMTP_HOST := none,
      SMTP_PORT := none, SMTP_SECURE := none, SMTP_USER := none,
      SMTP_PASS := none, EMAIL_USER := none, EMAIL_PASS := none,
      EMAIL_FROM := none, NODE_ENV := none, BASE_URL := none,
      PORT := none }
    emptyServiceRequest 1700000000000 (1/2)
    "2025-01-05T00:00:00.000Z" id

/-- C10: For every invoice composition where selectedService.price
equals 0, the HTML line-item price cell renders the placeholder
"[Amount]" instead of $0, while the subtotal and total rows render
$0 — the line-item price and the totals disagree for a zero price. -/
theorem claim_C10_zero_price_mismatch (env : Env) (fmt : String → String)
    (svc : SelectedService) (pd : PaymentData) (pid : Option String)
    (onum odate : String) (hzero : svc.price = some 0) :
    jsNumOrPlaceholder svc.price ("[Amount]") = "[Amount]" ∧
    calculateTotal svc = 0 ∧
    jsNumToString (calculateTotal svc) = "0" ∧
    ∃ pre,
      generateEmailHTML env fmt
          { selectedService := svc, paymentData := pd,
            paymentIntentId := pid, orderNumber := onum,
            orderDate := odate,
            calculateTotal := fun _ => calculateTotal svc } =
        pre ++ "$" ++ jsNumOrPlaceholder svc.price ("[Amount]")
          ++ htmlPriceToSubtotal
          ++ "$" ++ jsNumToString (calculateTotal svc)
          ++ htmlSubtotalToTotal
          ++ "$" ++ jsNumToString (calculateTotal svc)
          ++ htmlTotalToEnd := by
  have h2 : calculateTotal svc = 0 := by simp [calculateTotal, hzero]
  refine ⟨by simp [jsNumOrPlaceholder, hzero], h2, ?_, ?_⟩
  · rw [h2]
    decide
  · obtain ⟨pre, hpre⟩ := generateEmailHTML_split env fmt
      { selectedService := svc, paymentData := pd,
        paymentIntentId := pid, orderNumber := onum,
        orderDate := odate,
        calculateTotal := fun _ => calculateTotal svc }
    exact ⟨pre ++ "<strong>Order Number:</strong> " ++ onum
      ++ htmlOrderNumberToDate ++ fmt odate ++ htmlDateToServiceName
      ++ strOrDefault svc.name ("[Service Name]")
      ++ htmlServiceNameToPrice, hpre⟩

theorem claim_C10_witness :
    jsNumOrPlaceholder (some 0) ("[Amount]") = "[Amount]" ∧
    calculateTotal
        { name := some "Logo Design", price := some 0,
          categoryName := none, category := none } = 0 ∧
    jsNumToString (calculateTotal
        { name := some "Logo Design", price := some 0,
          categoryName := none, category := none }) = "0" ∧
    ∃ pre,
      generateEmailHTML
          { STRIPE_SECRET_KEY := some "sk", SMTP_HOST := none,
            SMTP_PORT := none, SMTP_SECURE := none, SMTP_USER := none,
            SMTP_PASS := none, EMAIL_USER := none, EMAIL_PASS := none,
            EMAIL_FROM := none, NODE_ENV := none, BASE_URL := none,
            PORT := none } id
          { selectedService :=
              { name := some "Logo Design", price := some 0,
                categoryName := none, category := none },
            paymentData :=
              { name := some "Jane Doe",
                email := some "jane@example.com" },
            paymentIntentId := none, orderNumber := "ORD-1",
            orderDate := "2025-01-05",
            calculateTotal := fun _ => calculateTotal
              { name := some "Logo Design", price := some 0,
                categoryName := none, category := none } } =
        pre ++ "$" ++ jsNumOrPlaceholder (some 0) ("[Amount]")
          ++ htmlPriceToSubtotal
          ++ "$" ++ jsNumToString (calculateTotal
            { name := some "Logo Design", price := some 0,
              categoryName := none, category := none })
          ++ htmlSubtotalToTotal
          ++ "$" ++ jsNumToString (calculateTotal
            { name := some "Logo Design", price := some 0,
              categoryName := none, category := none })
          ++ htmlTotalToEnd :=
  claim_C10_zero_price_mismatch
    { STRIPE_SECRET_KEY := some "sk", SMTP_HOST := none,
      SMTP_PORT := none, SMTP_SECURE := none, SMTP_USER := none,
      SMTP_PASS := none, EMAIL_USER := none, EMAIL_PASS := none,
      EMAIL_FROM := none, NODE_ENV := none, BASE_URL := none,
      PORT := none } id
    { name := some "Logo Design", price := some 0,
      categoryName := none, category := none }
    { name := some "Jane Doe", email := some "jane@example.com" }
    none "ORD-1" "2025-01-05" rfl
